import Mathlib

/-!
Verification development for the nllpy control-file generator
(`nllpy/core/commands.py`, `nllpy/core/config.py`, `nllpy/utils/inventory.py`,
`nllpy/templates/regional.py`).

Python floats are modelled exactly: every numeric literal in the sources is a
short decimal, exactly representable in a binary double only up to the usual
encoding, and every arithmetic step the program performs on them is exact in
the rationals. A float is embedded as an explicit fraction (`PyFloat`, a pair
of integers) with structurally recursive arithmetic, so that closed theorems
evaluate inside the kernel; `PyFloat.val` sends a fraction to `ℚ` for the
algebraic statements. Python ints are `Int`, fallible calls (`float(...)`,
`int(...)`, raised exceptions) are `Option`/`Except`, and the mutable
`NLLocConfig` object is explicit state passing over a structure.
-/

namespace Nllpy

/-! ### Exact model of Python floats -/

/-- An exact fraction `n / d`. Every float the program constructs has `0 < d`;
operations keep the denominator positive and never normalise (no `gcd`), so
all arithmetic is kernel-reducible. -/
structure PyFloat where
  n : ℤ
  d : ℤ
deriving DecidableEq

namespace PyFloat

/-- The rational value of a fraction (junk `0` when `d = 0`, which no
constructed float has). -/
def val (p : PyFloat) : ℚ := (p.n : ℚ) / (p.d : ℚ)

/-- Embed an integer. -/
def ofInt (n : ℤ) : PyFloat := ⟨n, 1⟩

/-- A decimal `m / 10^k` (the exact value of a decimal literal). -/
def ofDec (m : ℤ) (k : ℕ) : PyFloat := ⟨m, (10 : ℤ) ^ k⟩

/-- Negation. -/
def neg (p : PyFloat) : PyFloat := ⟨-p.n, p.d⟩

/-- Multiplication. -/
def mul (a b : PyFloat) : PyFloat := ⟨a.n * b.n, a.d * b.d⟩

/-- Addition (used only with concrete denominators). -/
def add (a b : PyFloat) : PyFloat := ⟨a.n * b.d + b.n * a.d, a.d * b.d⟩

/-- Division, keeping the denominator's sign out of the divisor's numerator. -/
def div (a b : PyFloat) : PyFloat :=
  if b.n < 0 then ⟨-(a.n * b.d), a.d * -b.n⟩ else ⟨a.n * b.d, a.d * b.n⟩

/-- Whether the value is negative. -/
def isNeg (p : PyFloat) : Bool := decide (p.n * p.d < 0)

/-- The numerator and denominator with the sign moved to the numerator. -/
def signNorm (p : PyFloat) : ℤ × ℤ :=
  if p.d < 0 then (-p.n, -p.d) else (p.n, p.d)

/-- Mathematical floor of the value (junk when `d = 0`). -/
def floorI (p : PyFloat) : ℤ :=
  let (n, d) := p.signNorm
  Int.ediv n d

/-- Mathematical ceiling of the value: Python `math.ceil`. -/
def mathCeil (p : PyFloat) : ℤ := -(p.neg.floorI)

/-- Truncation toward zero: Python `int()` applied to a float. -/
def pyTrunc (p : PyFloat) : ℤ :=
  if p.isNeg then p.mathCeil else p.floorI

/-- Round the value to the nearest integer, ties to even: the rounding used by
`format(x, ".nf")`. -/
def roundHE (p : PyFloat) : ℤ :=
  let (n, d) := p.signNorm
  if d = 0 then 0
  else
    let f := Int.ediv n d
    let r2 := 2 * (n - f * d)
    if r2 < d then f
    else if d < r2 then f + 1
    else if f % 2 = 0 then f else f + 1

end PyFloat

/-! ### Kernel-reducible string helpers

Core `String` operations (`trim`, `split`, `toUpper`, ...) run on byte
positions with well-founded recursion and do not reduce in the kernel, so the
Python string primitives the program uses are given structurally recursive
definitions over `List Char`. -/

/-- Left-pad a string with the character `c` to width `w` (no truncation). -/
def padLeftWith (c : Char) (s : String) (w : Nat) : String :=
  String.mk (List.replicate (w - s.length) c) ++ s

/-- Python `f"{s:<w}"`: left-justify in a field of width `w`, space padded. -/
def padRightSpaces (s : String) (w : Nat) : String :=
  s ++ String.mk (List.replicate (w - s.length) ' ')

/-- Drop leading and trailing whitespace from a character list. -/
def trimChars (l : List Char) : List Char :=
  ((l.dropWhile Char.isWhitespace).reverse.dropWhile Char.isWhitespace).reverse

/-- Python `s.strip()`. -/
def pyStrip (s : String) : String := String.mk (trimChars s.toList)

/-- Split a character list at every character satisfying `sep`, keeping empty
pieces. -/
def splitBy (sep : Char → Bool) : List Char → List (List Char)
  | [] => [[]]
  | c :: rest =>
    let r := splitBy sep rest
    if sep c then [] :: r
    else (c :: r.headD []) :: r.tail

/-- Python `s.split()` with no argument: split on runs of whitespace, dropping
empty pieces. -/
def pySplit (s : String) : List String :=
  ((splitBy Char.isWhitespace s.toList).map String.mk).filter (fun p => p ≠ "")

/-- Python `s.split('\n')` (empty pieces kept). -/
def pyLines (s : String) : List String :=
  (splitBy (fun c => c = '\n') s.toList).map String.mk

/-- Python `s.split('|')` (empty pieces kept), the FDSN inventory separator. -/
def pySplitBar (s : String) : List String :=
  (splitBy (fun c => c = '|') s.toList).map String.mk

/-- Python `s.startswith(p)`. -/
def pyStartsWith (s p : String) : Bool :=
  decide (s.toList.take p.toList.length = p.toList)

/-- Uppercase an ASCII letter (all keywords in the grammar are ASCII). -/
def asciiUpper (c : Char) : Char :=
  if 'a' ≤ c ∧ c ≤ 'z' then Char.ofNat (c.toNat - 32) else c

/-- Python `s.upper()` for ASCII strings. -/
def pyUpper (s : String) : String := String.mk (s.toList.map asciiUpper)

/-- Value of a list of decimal digit characters. -/
def digitsVal (l : List Char) : Nat :=
  l.foldl (fun a c => a * 10 + (c.toNat - 48)) 0

/-! ### Python numeric formatting and parsing -/

/-- Python `f"{q:.precf}"`: fixed-point rendering with `prec` digits after the
dot (rounding ties to even on the exact value). -/
def decStr (q : PyFloat) (prec : Nat) : String :=
  let n : ℤ := (q.mul (.ofInt ((10 : ℤ) ^ prec))).roundHE
  let sign := if n < 0 then "-" else ""
  let m := n.natAbs
  if prec = 0 then sign ++ toString m
  else sign ++ toString (m / 10 ^ prec) ++ "." ++
    padLeftWith '0' (toString (m % 10 ^ prec)) prec

/-- CPython `str`/`repr` of a float, for values exactly representable as a
short decimal (all values this program renders are): the shortest decimal
expansion, with at least one digit after the dot (`str(-50.0)` is `"-50.0"`,
`str(0.01)` is `"0.01"`). -/
def pyFloatRepr (q : PyFloat) : String :=
  let (n, d) := q.signNorm
  let k := (((List.range 18).find? (fun k => n * (10 : ℤ) ^ k % d = 0)).getD 17)
  let v : ℤ := Int.ediv (n * (10 : ℤ) ^ k) d
  let sign := if v < 0 then "-" else ""
  let m := v.natAbs
  if k = 0 then sign ++ toString m ++ ".0"
  else sign ++ toString (m / 10 ^ k) ++ "." ++
    padLeftWith '0' (toString (m % 10 ^ k)) k

/-- Python `f"{o}"` on an `Optional[float]` field: `None` prints as `"None"`. -/
def pyOptFloatRepr : Option PyFloat → String
  | some q => pyFloatRepr q
  | none => "None"

/-- Python `float(s)`: parse a decimal literal with optional sign, fraction
and exponent; `none` models the `ValueError` raised on anything else (the
textual special forms `inf`/`nan` never occur in this program's inputs). -/
def pyFloat? (s : String) : Option PyFloat :=
  let cs := trimChars s.toList
  let (sgn, cs) : ℤ × List Char :=
    match cs with
    | '-' :: rest => (-1, rest)
    | '+' :: rest => (1, rest)
    | _ => (1, cs)
  let ip := cs.takeWhile Char.isDigit
  let rest := cs.dropWhile Char.isDigit
  let (fp, rest) : List Char × List Char :=
    match rest with
    | '.' :: r => (r.takeWhile Char.isDigit, r.dropWhile Char.isDigit)
    | _ => ([], rest)
  if ip.isEmpty ∧ fp.isEmpty then none
  else
    let mant : PyFloat := .ofDec (sgn * (digitsVal ip * 10 ^ fp.length + digitsVal fp)) fp.length
    match rest with
    | [] => some mant
    | e :: r =>
      if e = 'e' ∨ e = 'E' then
        let (esgn, r) : Bool × List Char :=
          match r with
          | '-' :: r2 => (true, r2)
          | '+' :: r2 => (false, r2)
          | _ => (false, r)
        if r.isEmpty ∨ ¬ r.all Char.isDigit then none
        else if esgn then some (mant.div (.ofInt ((10 : ℤ) ^ digitsVal r)))
        else some (mant.mul (.ofInt ((10 : ℤ) ^ digitsVal r)))
      else none

/-- Python `int(s)`: only an optionally signed run of digits is accepted
(`int("-50.0")` raises, modelled as `none`). -/
def pyInt? (s : String) : Option ℤ :=
  let cs := trimChars s.toList
  let (sgn, cs) : ℤ × List Char :=
    match cs with
    | '-' :: rest => (-1, rest)
    | '+' :: rest => (1, rest)
    | _ => (1, cs)
  if cs.isEmpty ∨ ¬ cs.all Char.isDigit then none
  else some (sgn * digitsVal cs)

end Nllpy

namespace Nllpy

/-- A Python value that may be an `int` or a `float`: some fields hold an int
by default but are assigned floats by callers, and the two print differently. -/
inductive PyNum where
  | int (n : ℤ)
  | float (q : PyFloat)
deriving DecidableEq

/-- Python `f"{n}"` on a `PyNum`. -/
def PyNum.repr : PyNum → String
  | .int n => toString n
  | .float q => pyFloatRepr q

/-- Shorthand for a decimal literal `m / 10^k`. -/
def dq (m : ℤ) (k : ℕ) : PyFloat := PyFloat.ofDec m k

/-! ### Command records (`nllpy/core/commands.py`)

Each dataclass becomes a structure with the source's defaults; `__str__`
becomes `render`.  `TransCommand.__str__` raises when an origin is unset, and
`LayerCommand.__str__` raises when unpacking a 2-tuple layer, so those two
render into `Except`. -/

/-- CONTROL command parameters. -/
structure ControlCommand where
  message_flag : ℤ := 1
  random_seed : ℤ := 54321
deriving DecidableEq

def ControlCommand.render (c : ControlCommand) : String :=
  "CONTROL " ++ toString c.message_flag ++ " " ++ toString c.random_seed

/-- TRANS command for coordinate transformation. The last three fields are
not dataclass fields: `_parse_control_file_content` assigns the instance
attributes `orig_lat`, `orig_lon`, `orig_elev` (which `__str__` never reads),
and on a non-slots Python object that silently creates them. -/
structure TransCommand where
  transformation : String := "SIMPLE"
  lat_orig : Option PyFloat := none
  lon_orig : Option PyFloat := none
  rotation : PyFloat := .ofInt 0
  orig_lat : Option PyFloat := none
  orig_lon : Option PyFloat := none
  orig_elev : Option PyFloat := none
deriving DecidableEq

def TransCommand.render (c : TransCommand) : Except String String :=
  if c.lat_orig = none ∨ c.lon_orig = none then
    .error "ValueError: lat_orig and lon_orig must be specified"
  else
    .ok ("TRANS " ++ c.transformation ++ " " ++ pyOptFloatRepr c.lat_orig ++ " " ++
      pyOptFloatRepr c.lon_orig ++ " " ++ pyFloatRepr c.rotation)

/-- VELGRID command parameters. -/
structure VelGridCommand where
  num_grid_x : ℤ := 200
  num_grid_y : ℤ := 200
  num_grid_z : ℤ := 50
  orig_grid_x : Option PyFloat := none
  orig_grid_y : Option PyFloat := none
  orig_grid_z : PyFloat := .ofInt 0
  d_grid_x : PyFloat := .ofInt 1
  d_grid_y : PyFloat := .ofInt 1
  d_grid_z : PyFloat := .ofInt 1
  d_xy : Option PyFloat := none
  d_xyz : Option PyFloat := none
  grid_type : String := "SLOW_LEN"
deriving DecidableEq

/-- `VelGridCommand.__post_init__`: expand the convenience spacing parameters,
then derive any unset x/y origin as `-(count * spacing) / 2`. -/
def VelGridCommand.postInit (c : VelGridCommand) : VelGridCommand :=
  let c := match c.d_xyz with
    | some v => { c with d_grid_x := v, d_grid_y := v, d_grid_z := v }
    | none =>
      match c.d_xy with
      | some v => { c with d_grid_x := v, d_grid_y := v }
      | none => c
  let ox := ((PyFloat.ofInt c.num_grid_x).mul c.d_grid_x).neg.div (.ofInt 2)
  let oy := ((PyFloat.ofInt c.num_grid_y).mul c.d_grid_y).neg.div (.ofInt 2)
  let c := match c.orig_grid_x with
    | none => { c with orig_grid_x := some ox }
    | some _ => c
  match c.orig_grid_y with
  | none => { c with orig_grid_y := some oy }
  | some _ => c

def VelGridCommand.render (c : VelGridCommand) : String :=
  "VGGRID " ++ toString c.num_grid_x ++ " " ++ toString c.num_grid_y ++ " " ++
    toString c.num_grid_z ++ "  " ++ pyOptFloatRepr c.orig_grid_x ++ " " ++
    pyOptFloatRepr c.orig_grid_y ++ " " ++ pyFloatRepr c.orig_grid_z ++ "  " ++
    pyFloatRepr c.d_grid_x ++ " " ++ pyFloatRepr c.d_grid_y ++ " " ++
    pyFloatRepr c.d_grid_z ++ "  " ++ c.grid_type

/-- LOCGRID command parameters. -/
structure LocGridCommand where
  num_grid_x : ℤ := 100
  num_grid_y : ℤ := 100
  num_grid_z : ℤ := 50
  orig_grid_x : Option PyFloat := none
  orig_grid_y : Option PyFloat := none
  orig_grid_z : PyFloat := .ofInt 0
  d_grid_x : PyFloat := .ofInt 1
  d_grid_y : PyFloat := .ofInt 1
  d_grid_z : PyFloat := .ofInt 1
  d_xy : Option PyFloat := none
  d_xyz : Option PyFloat := none
  grid_type : String := "PROB_DENSITY"
  float_type : String := "SAVE"
deriving DecidableEq

/-- `LocGridCommand.__post_init__`: expand the convenience spacing parameters,
then derive any unset x/y origin as `-(count * spacing) / 2`. -/
def LocGridCommand.postInit (c : LocGridCommand) : LocGridCommand :=
  let c := match c.d_xyz with
    | some v => { c with d_grid_x := v, d_grid_y := v, d_grid_z := v }
    | none =>
      match c.d_xy with
      | some v => { c with d_grid_x := v, d_grid_y := v }
      | none => c
  let ox := ((PyFloat.ofInt c.num_grid_x).mul c.d_grid_x).neg.div (.ofInt 2)
  let oy := ((PyFloat.ofInt c.num_grid_y).mul c.d_grid_y).neg.div (.ofInt 2)
  let c := match c.orig_grid_x with
    | none => { c with orig_grid_x := some ox }
    | some _ => c
  match c.orig_grid_y with
  | none => { c with orig_grid_y := some oy }
  | some _ => c

def LocGridCommand.render (c : LocGridCommand) : String :=
  "LOCGRID " ++ toString c.num_grid_x ++ " " ++ toString c.num_grid_y ++ " " ++
    toString c.num_grid_z ++ "  " ++ pyOptFloatRepr c.orig_grid_x ++ " " ++
    pyOptFloatRepr c.orig_grid_y ++ " " ++ pyFloatRepr c.orig_grid_z ++ "  " ++
    pyFloatRepr c.d_grid_x ++ " " ++ pyFloatRepr c.d_grid_y ++ " " ++
    pyFloatRepr c.d_grid_z ++ "  " ++ c.grid_type ++ " " ++ c.float_type

/-- LOCSEARCH command parameters. -/
structure LocSearchCommand where
  search_type : String := "OCT"
  num_cells_x : ℤ := 20
  num_cells_y : ℤ := 20
  num_cells_z : ℤ := 11
  min_node_size : PyFloat := .ofDec 1 2
  max_num_nodes : ℤ := 20000
  num_scatter : ℤ := 5000
deriving DecidableEq

def LocSearchCommand.render (c : LocSearchCommand) : String :=
  if c.search_type = "OCT" then
    "LOCSEARCH " ++ c.search_type ++ " " ++ toString c.num_cells_x ++ " " ++
      toString c.num_cells_y ++ " " ++ toString c.num_cells_z ++ " " ++
      pyFloatRepr c.min_node_size ++ " " ++ toString c.max_num_nodes ++ " " ++
      toString c.num_scatter ++ " 0 1"
  else
    "LOCSEARCH " ++ c.search_type

/-- LOCMETH command parameters (`v_p_vs_ratio` defaults to the int `-1` but
callers assign floats to it). -/
structure LocMethodCommand where
  method : String := "EDT_OT_WT"
  max_dist_sta_grid : PyFloat := .ofInt 9999
  min_num_phases : ℤ := 6
  max_num_phases : ℤ := -1
  min_num_s_phases : ℤ := -1
  v_p_vs_ratio : PyNum := .int (-1)
  max_num_3d_grid_memory : ℤ := 0
  min_num_loc_grids : ℤ := -1
  duplicate_arrivals_mode : ℤ := 1
deriving DecidableEq

def LocMethodCommand.render (c : LocMethodCommand) : String :=
  "LOCMETH " ++ c.method ++ " " ++ decStr c.max_dist_sta_grid 1 ++ " " ++
    toString c.min_num_phases ++ " " ++ toString c.max_num_phases ++ " " ++
    toString c.min_num_s_phases ++ " " ++ c.v_p_vs_ratio.repr ++ " " ++
    toString c.max_num_3d_grid_memory ++ " " ++ toString c.min_num_loc_grids ++
    " " ++ toString c.duplicate_arrivals_mode

/-- GTSRCE command for station parameters. -/
structure GTSrceCommand where
  label : String
  lat_sta : PyFloat
  lon_sta : PyFloat
  elev : PyFloat
  depth_corr : PyFloat := .ofInt 0
  sta_fmt : String := "STA"
deriving DecidableEq

def GTSrceCommand.render (c : GTSrceCommand) : String :=
  let field_width : Nat := if c.sta_fmt = "NET.STA" ∨ c.sta_fmt = "NET_STA" then 8 else 5
  "GTSRCE " ++ padRightSpaces c.label field_width ++ " LATLON " ++
    decStr c.lat_sta 6 ++ " " ++ decStr c.lon_sta 6 ++ " " ++
    decStr c.depth_corr 1 ++ " " ++ decStr c.elev 3 ++ " "

/-- Command for station-specific error definitions. -/
structure EQSTACommand where
  label : String
  phase : String := "P"
  error_type : String := "GAU"
  error : PyFloat := .ofInt 0
  error_report_type : String := "GAU"
  error_report : PyFloat := .ofInt 0
  prob_active : PyFloat := .ofInt 1
  sta_fmt : String := "STA"
deriving DecidableEq

def EQSTACommand.render (c : EQSTACommand) : String :=
  let field_width : Nat := if c.sta_fmt = "NET.STA" ∨ c.sta_fmt = "NET_STA" then 8 else 5
  "EQSTA  " ++ padRightSpaces c.label field_width ++ "  " ++ c.phase ++ "  " ++
    c.error_type ++ "  " ++ pyFloatRepr c.error ++ "  " ++ c.error_report_type ++
    "  " ++ pyFloatRepr c.error_report ++ "  " ++ pyFloatRepr c.prob_active

/-- A velocity-model layer tuple. The dataclass default and the template
models are 7-tuples, but `_parse_control_file_content` and
`_set_velocity_model_by_name` append 2-tuples to the same Python list;
`LayerCommand.__str__` unpacks seven values and raises on a 2-tuple. -/
inductive PyLayer where
  | seven (depth VpTop VpGrad VsTop VsGrad rhoTop rhoGrad : PyFloat)
  | two (depth velocity : PyFloat)
deriving DecidableEq

def PyLayer.renderLine : PyLayer → Except String String
  | .seven depth VpTop VpGrad VsTop VsGrad rhoTop rhoGrad =>
    .ok ("LAYER " ++ padLeftWith ' ' (decStr depth 2) 5 ++ " " ++ decStr VpTop 2 ++
      " " ++ decStr VpGrad 2 ++ " " ++ decStr VsTop 2 ++ " " ++ decStr VsGrad 2 ++
      " " ++ decStr rhoTop 2 ++ " " ++ decStr rhoGrad 2)
  | .two _ _ => .error "ValueError: not enough values to unpack"

/-- The default layer table of `LayerCommand.__post_init__` (generic
stratovolcano model). -/
def defaultLayerTable : List PyLayer := [
    .seven (dq 0 2) (dq 42669 4) (dq 0 2) (dq 24664 4) (dq 0 2) (dq 27 1) (dq 0 1),
    .seven (dq 100 2) (dq 46400 4) (dq 0 2) (dq 26821 4) (dq 0 2) (dq 27 1) (dq 0 1),
    .seven (dq 200 2) (dq 49574 4) (dq 0 2) (dq 28656 4) (dq 0 2) (dq 27 1) (dq 0 1),
    .seven (dq 300 2) (dq 52000 4) (dq 0 2) (dq 30059 4) (dq 0 2) (dq 27 1) (dq 0 1),
    .seven (dq 400 2) (dq 53846 4) (dq 0 2) (dq 31125 4) (dq 0 2) (dq 27 1) (dq 0 1),
    .seven (dq 500 2) (dq 55344 4) (dq 0 2) (dq 31991 4) (dq 0 2) (dq 27 1) (dq 0 1),
    .seven (dq 600 2) (dq 56382 4) (dq 0 2) (dq 32591 4) (dq 0 2) (dq 27 1) (dq 0 1),
    .seven (dq 700 2) (dq 57612 4) (dq 0 2) (dq 33302 4) (dq 0 2) (dq 27 1) (dq 0 1),
    .seven (dq 800 2) (dq 58638 4) (dq 0 2) (dq 33895 4) (dq 0 2) (dq 27 1) (dq 0 1),
    .seven (dq 900 2) (dq 59561 4) (dq 0 2) (dq 34429 4) (dq 0 2) (dq 27 1) (dq 0 1),
    .seven (dq 1000 2) (dq 60681 4) (dq 0 2) (dq 35076 4) (dq 0 2) (dq 27 1) (dq 0 1),
    .seven (dq 1100 2) (dq 61625 4) (dq 0 2) (dq 35621 4) (dq 0 2) (dq 27 1) (dq 0 1),
    .seven (dq 1200 2) (dq 62579 4) (dq 0 2) (dq 36173 4) (dq 0 2) (dq 27 1) (dq 0 1),
    .seven (dq 1300 2) (dq 63340 4) (dq 0 2) (dq 36613 4) (dq 0 2) (dq 27 1) (dq 0 1),
    .seven (dq 1400 2) (dq 63930 4) (dq 0 2) (dq 36954 4) (dq 0 2) (dq 27 1) (dq 0 1),
    .seven (dq 1500 2) (dq 65047 4) (dq 0 2) (dq 37600 4) (dq 0 2) (dq 27 1) (dq 0 1),
    .seven (dq 1600 2) (dq 65277 4) (dq 0 2) (dq 37732 4) (dq 0 2) (dq 27 1) (dq 0 1),
    .seven (dq 1700 2) (dq 65967 4) (dq 0 2) (dq 38131 4) (dq 0 2) (dq 27 1) (dq 0 1),
    .seven (dq 1800 2) (dq 66520 4) (dq 0 2) (dq 38451 4) (dq 0 2) (dq 27 1) (dq 0 1),
    .seven (dq 1900 2) (dq 67230 4) (dq 0 2) (dq 38861 4) (dq 0 2) (dq 27 1) (dq 0 1),
    .seven (dq 2000 2) (dq 67715 4) (dq 0 2) (dq 39142 4) (dq 0 2) (dq 27 1) (dq 0 1),
    .seven (dq 2100 2) (dq 68049 4) (dq 0 2) (dq 38861 4) (dq 0 2) (dq 27 1) (dq 0 1),
    .seven (dq 2200 2) (dq 68533 4) (dq 0 2) (dq 39614 4) (dq 0 2) (dq 27 1) (dq 0 1),
    .seven (dq 2300 2) (dq 68985 4) (dq 0 2) (dq 39876 4) (dq 0 2) (dq 27 1) (dq 0 1),
    .seven (dq 2400 2) (dq 69619 4) (dq 0 2) (dq 40242 4) (dq 0 2) (dq 27 1) (dq 0 1),
    .seven (dq 2500 2) (dq 69889 4) (dq 0 2) (dq 40398 4) (dq 0 2) (dq 27 1) (dq 0 1),
    .seven (dq 2600 2) (dq 70233 4) (dq 0 2) (dq 40597 4) (dq 0 2) (dq 27 1) (dq 0 1),
    .seven (dq 2700 2) (dq 70807 4) (dq 0 2) (dq 40929 4) (dq 0 2) (dq 27 1) (dq 0 1),
    .seven (dq 2800 2) (dq 71085 4) (dq 0 2) (dq 41089 4) (dq 0 2) (dq 27 1) (dq 0 1)]

/-- LAYER layers for velocity model (`__post_init__` fills the default table
when the list is empty). -/
structure LayerCommand where
  layers : List PyLayer := defaultLayerTable
deriving DecidableEq

def LayerCommand.render (c : LayerCommand) : Except String String :=
  (c.layers.mapM PyLayer.renderLine).map (String.intercalate "\n")

/-- LOCPHASEID command for phase definitions. -/
structure LocPhaseIDCommand where
  phase_type : String
  phase_labels : List String
deriving DecidableEq

def LocPhaseIDCommand.render (c : LocPhaseIDCommand) : String :=
  "LOCPHASEID " ++ c.phase_type ++ "   " ++ String.intercalate " " c.phase_labels

/-- LOCQUAL2ERR command for quality to error mapping. -/
structure LocQual2ErrCommand where
  error_values : List PyFloat :=
    [.ofDec 2 2, .ofDec 5 2, .ofDec 1 1, .ofDec 2 1, .ofDec 5 1, .ofDec 999999 1]
deriving DecidableEq

def LocQual2ErrCommand.render (c : LocQual2ErrCommand) : String :=
  "LOCQUAL2ERR " ++ String.intercalate " " (c.error_values.map (fun e => decStr e 3))

end Nllpy

namespace Nllpy

/-! ### Station inventory records (`nllpy/utils/inventory.py`) -/

/-- A normalized station record as produced by the inventory parsers
(dictionary with keys code, latitude, longitude, depth, elevation). -/
structure StationData where
  code : String
  latitude : PyFloat
  longitude : PyFloat
  depth : PyFloat
  elevation : PyFloat
deriving DecidableEq

/-! ### The configuration aggregate (`nllpy/core/config.py`) -/

/-- `NLLocConfig`: the aggregate owning one instance of each singleton command
plus the ordered collections. -/
structure NLLocConfig where
  control : ControlCommand
  trans : TransCommand
  vgtype : List String
  eqvpvs : PyFloat
  velocity_path : String
  time_path : String
  synth_path : String
  input_obs : String × String
  output_obs : String
  lochypout : List String
  vggrid : VelGridCommand
  locgrid : LocGridCommand
  locsearch : LocSearchCommand
  locmethod : LocMethodCommand
  layer : LayerCommand
  gtsrce_stations : List GTSrceCommand
  eqsta_commands : List EQSTACommand
  locsig : String
  loccom : String
  locphaseid : List (String × List String)
  locqual2err : LocQual2ErrCommand
deriving DecidableEq

namespace NLLocConfig

/-- `NLLocConfig.__init__`: the default-populated aggregate (the grid commands
are constructed by their dataclass constructors, which run `__post_init__`). -/
def init : NLLocConfig where
  control := {}
  trans := {}
  vgtype := ["P"]
  eqvpvs := .ofDec 173 2
  velocity_path := "./model/layer"
  time_path := "./time/layer"
  synth_path := "./obs_synth/synth.obs"
  input_obs := ("./obs/*.obs", "NLLOC_OBS")
  output_obs := "./loc/volcano"
  lochypout := ["SAVE_NLLOC_ALL", "SAVE_NLLOC_SUM", "SAVE_HYPO71_SUM"]
  vggrid := VelGridCommand.postInit {}
  locgrid := LocGridCommand.postInit {}
  locsearch := {}
  locmethod := {}
  layer := {}
  gtsrce_stations := []
  eqsta_commands := []
  locsig := "NLLPy - Python NLLoc Control Generator"
  loccom := "Generated automatically"
  locphaseid := [("P", ["P", "p", "Pn", "Pg", "P1"]), ("S", ["S", "s", "Sn", "Sg", "S1"])]
  locqual2err := {}

/-- `_add_station_to_gtsrce`: append one GTSRCE record built from a station
dictionary (elevation is `depth * -1.0`). -/
def add_station_to_gtsrce (cfg : NLLocConfig) (station_data : StationData)
    (sta_fmt : String) : NLLocConfig :=
  { cfg with gtsrce_stations := cfg.gtsrce_stations ++
      [{ label := station_data.code, lat_sta := station_data.latitude,
         lon_sta := station_data.longitude,
         elev := station_data.depth.mul (.ofDec (-10) 1),
         depth_corr := .ofInt 0, sta_fmt := sta_fmt }] }

/-- `add_eqsta_single`: append one EQSTA error definition. -/
def add_eqsta_single (cfg : NLLocConfig) (label : String) (phase : String)
    (error_type : String) (error : PyFloat) (error_report_type : String)
    (error_report : PyFloat) (prob_active : PyFloat) : NLLocConfig :=
  { cfg with eqsta_commands := cfg.eqsta_commands ++
      [{ label := label, phase := phase, error_type := error_type, error := error,
         error_report_type := error_report_type, error_report := error_report,
         prob_active := prob_active, sta_fmt := "STA" }] }

/-- `add_station`: append one station and one default P-phase EQSTA record. -/
def add_station (cfg : NLLocConfig) (code : String) (lat lon elev : PyFloat)
    (depth_corr : PyFloat) : NLLocConfig :=
  let cfg : NLLocConfig := { cfg with gtsrce_stations := cfg.gtsrce_stations ++
      [{ label := code, lat_sta := lat, lon_sta := lon, elev := elev,
         depth_corr := depth_corr, sta_fmt := "STA" }] }
  { cfg with eqsta_commands := cfg.eqsta_commands ++
      [{ label := code, phase := "P", error_type := "GAU", error := .ofInt 0,
         error_report_type := "GAU", error_report := .ofInt 0,
         prob_active := .ofInt 1, sta_fmt := "STA" }] }

/-- `setup_basic_grid`: mutate the location grid in place; the point counts
are `int(extent / spacing) + 1`. The optional center coordinates are written
to `trans.orig_lat` / `trans.orig_lon` (dynamically created attributes, not
the `lat_orig` / `lon_orig` dataclass fields). -/
def setup_basic_grid (cfg : NLLocConfig) (grid_size grid_spacing : PyFloat)
    (depth_range depth_spacing : PyFloat)
    (center_lat center_lon : Option PyFloat) : NLLocConfig :=
  let num_grid_points : ℤ := (grid_size.div grid_spacing).pyTrunc + 1
  let num_depth_points : ℤ := (depth_range.div depth_spacing).pyTrunc + 1
  let cfg : NLLocConfig := { cfg with locgrid := { cfg.locgrid with
      num_grid_x := num_grid_points, num_grid_y := num_grid_points,
      num_grid_z := num_depth_points,
      d_grid_x := grid_spacing, d_grid_y := grid_spacing,
      d_grid_z := depth_spacing } }
  let cfg : NLLocConfig := match center_lat with
    | some v => { cfg with trans := { cfg.trans with orig_lat := some v } }
    | none => cfg
  match center_lon with
  | some v => { cfg with trans := { cfg.trans with orig_lon := some v } }
  | none => cfg

/-- `setup_grid_from_km`: replace the location grid with a freshly constructed
`LocGridCommand` (running `__post_init__`); the point counts are
`int(math.ceil(extent / spacing))` after convenience-spacing expansion. -/
def setup_grid_from_km (cfg : NLLocConfig) (kmx kmy kmz dx dy dz : PyFloat)
    (d_xy d_xyz : Option PyFloat)
    (center_lat center_lon : Option PyFloat) : NLLocConfig :=
  let (dx, dy, dz) : PyFloat × PyFloat × PyFloat :=
    match d_xyz with
    | some v => (v, v, v)
    | none =>
      match d_xy with
      | some v => (v, v, dz)
      | none => (dx, dy, dz)
  let nx : ℤ := (kmx.div dx).mathCeil
  let ny : ℤ := (kmy.div dy).mathCeil
  let nz : ℤ := (kmz.div dz).mathCeil
  let newgrid := LocGridCommand.postInit { num_grid_x := nx, num_grid_y := ny, num_grid_z := nz, d_grid_x := dx, d_grid_y := dy, d_grid_z := dz }
  let cfg : NLLocConfig := { cfg with locgrid := newgrid }
  let cfg : NLLocConfig := match center_lat with
    | some v => { cfg with trans := { cfg.trans with orig_lat := some v } }
    | none => cfg
  match center_lon with
  | some v => { cfg with trans := { cfg.trans with orig_lon := some v } }
  | none => cfg

/-- `get_eqsta_section`. -/
def get_eqsta_section (cfg : NLLocConfig) : String :=
  if cfg.eqsta_commands.isEmpty then "# No EQSTA error definitions"
  else String.intercalate "\n"
    ("# Station-specific error definitions" :: cfg.eqsta_commands.map EQSTACommand.render)

/-- `get_gtsrce_section`. -/
def get_gtsrce_section (cfg : NLLocConfig) : String :=
  if cfg.gtsrce_stations.isEmpty then "# No stations defined"
  else String.intercalate "\n"
    ("# Station definitions" :: cfg.gtsrce_stations.map GTSrceCommand.render)

/-- `get_layer_section` (fails when a layer tuple cannot be unpacked). -/
def get_layer_section (cfg : NLLocConfig) : Except String String :=
  (cfg.layer.render).map (fun s => "# Velocity model\n" ++ s)

/-- `get_vgtype_section`. -/
def get_vgtype_section (cfg : NLLocConfig) : String :=
  String.intercalate "\n" (cfg.vgtype.map (fun t => "VGTYPE  " ++ t))

/-- `get_vggrid_section`. -/
def get_vggrid_section (cfg : NLLocConfig) : String :=
  "# Velocity grid\n" ++ cfg.vggrid.render

/-- `get_locgrid_section`. -/
def get_locgrid_section (cfg : NLLocConfig) : String :=
  "# Location grid\n" ++ cfg.locgrid.render

/-- `get_lochypout_section`. -/
def get_lochypout_section (cfg : NLLocConfig) : String :=
  "LOCHYPOUT  " ++ String.intercalate " " cfg.lochypout

/-- `get_basic_commands`. -/
def get_basic_commands (cfg : NLLocConfig) : String :=
  "# Basic control parameters\n" ++ cfg.control.render

/-- `get_trans_commands` (fails when the transform origin is unset). -/
def get_trans_commands (cfg : NLLocConfig) : Except String String :=
  (cfg.trans.render).map (fun t => "# Transform command\n" ++ t)

/-- `get_comment_commands`. -/
def get_comment_commands (cfg : NLLocConfig) : String :=
  "# Signature and comments\n" ++ "LOCSIG " ++ cfg.locsig ++ "\n" ++
    "LOCCOM " ++ cfg.loccom

/-- `get_phase_definitions`. -/
def get_phase_definitions (cfg : NLLocConfig) : String :=
  String.intercalate "\n"
    (("# Phase definitions" ::
      cfg.locphaseid.map (fun pt =>
        LocPhaseIDCommand.render { phase_type := pt.1, phase_labels := pt.2 })) ++
      [cfg.locqual2err.render])

/-- `get_io_sections`. -/
def get_io_sections (cfg : NLLocConfig) : String :=
  String.intercalate "\n" [
    "VGOUT    " ++ cfg.velocity_path,
    "GTFILES  " ++ cfg.velocity_path ++ "  " ++ cfg.time_path ++ "  P",
    "EQFILES  " ++ cfg.time_path ++ "  " ++ cfg.synth_path,
    "LOCFILES " ++ cfg.input_obs.1 ++ "  " ++ cfg.input_obs.2 ++ "  " ++
      cfg.time_path ++ " " ++ cfg.output_obs,
    cfg.get_lochypout_section]

/-- `write_complete_control_file`: the full control document (the sections
joined by one blank line); returns the file's content. -/
def write_complete_control_file (cfg : NLLocConfig) : Except String String := do
  let transSection ← cfg.get_trans_commands
  let layerSection ← cfg.get_layer_section
  .ok (String.intercalate "\n\n" [
    cfg.get_basic_commands,
    transSection,
    cfg.get_comment_commands,
    cfg.get_io_sections,
    "GTMODE   GRID3D  ANGLES_YES",
    "GT_PLFD  1.0e-3  0",
    "EQMECH  DOUBLE 0.0 90.0 0.0",
    "EQMODE SRCE_TO_STA",
    "EQEVENT  EQ001   0.0 0.0 10.0  0.0",
    "EQQUAL2ERR 0.1 0.2 0.4 0.8 99999.9",
    cfg.get_vgtype_section,
    "EQVPVS  " ++ pyFloatRepr cfg.eqvpvs,
    cfg.get_vggrid_section,
    cfg.get_locgrid_section,
    cfg.locsearch.render,
    cfg.locmethod.render,
    layerSection,
    "LOCGAU 0.2 0.0",
    "LOCGAU2 0.01 0.05 2.0",
    "LOCANGLES ANGLES_YES 5",
    "LOCMAG ML_HB 1.0 1.110 0.00189",
    "LOCPHSTAT 9999.0 -1 9999.0 1.0 1.0 9999.9 -9999.9 9999.9",
    cfg.get_phase_definitions,
    cfg.get_gtsrce_section,
    cfg.get_eqsta_section,
    ""])

end NLLocConfig

end Nllpy

namespace Nllpy

namespace NLLocConfig

/-- One conversion step inside a line handler: Python converts a token and, on
`ValueError`, the exception propagates with every mutation made so far kept
(the object is mutated in place). -/
def convStep {α : Type} (cfg : NLLocConfig) (v : Option α)
    (k : α → NLLocConfig × Option String) : NLLocConfig × Option String :=
  match v with
  | none => (cfg, some "ValueError: invalid literal")
  | some x => k x

/-- One line of `_parse_control_file_content`: strip, skip blanks and `#`
comments, dispatch on the upper-cased first token; unrecognized keywords and
recognized keywords with too few tokens are silently skipped. The returned
`Option String` is the exception the handler raises, if any; mutations made
before the raising conversion are kept. -/
def parseLine (cfg : NLLocConfig) (rawLine : String) : NLLocConfig × Option String :=
  let line := pyStrip rawLine
  if line = "" ∨ pyStartsWith line "#" then (cfg, none)
  else
    let parts := pySplit line
    if parts.isEmpty then (cfg, none)
    else
      let p := fun (i : Nat) => parts.getD i ""
      let command := pyUpper (p 0)
      if command = "TRANS" then
        if 4 ≤ parts.length then
          convStep cfg (pyFloat? (p 1)) (fun v1 =>
            let cfg : NLLocConfig :=
              { cfg with trans := { cfg.trans with orig_lat := some v1 } }
            convStep cfg (pyFloat? (p 2)) (fun v2 =>
              let cfg : NLLocConfig :=
                { cfg with trans := { cfg.trans with orig_lon := some v2 } }
              convStep cfg (pyFloat? (p 3)) (fun v3 =>
                ({ cfg with trans := { cfg.trans with orig_elev := some v3 } }, none))))
        else (cfg, none)
      else if command = "LOCGRID" then
        if 10 ≤ parts.length then
          convStep cfg (pyFloat? (p 1)) (fun ox =>
            let cfg : NLLocConfig :=
              { cfg with locgrid := { cfg.locgrid with orig_grid_x := some ox } }
            convStep cfg (pyFloat? (p 2)) (fun oy =>
              let cfg : NLLocConfig :=
                { cfg with locgrid := { cfg.locgrid with orig_grid_y := some oy } }
              convStep cfg (pyFloat? (p 3)) (fun oz =>
                let cfg : NLLocConfig :=
                  { cfg with locgrid := { cfg.locgrid with orig_grid_z := oz } }
                convStep cfg (pyInt? (p 4)) (fun nx =>
                  let cfg : NLLocConfig :=
                    { cfg with locgrid := { cfg.locgrid with num_grid_x := nx } }
                  convStep cfg (pyInt? (p 5)) (fun ny =>
                    let cfg : NLLocConfig :=
                      { cfg with locgrid := { cfg.locgrid with num_grid_y := ny } }
                    convStep cfg (pyInt? (p 6)) (fun nz =>
                      let cfg : NLLocConfig :=
                        { cfg with locgrid := { cfg.locgrid with num_grid_z := nz } }
                      convStep cfg (pyFloat? (p 7)) (fun dx =>
                        let cfg : NLLocConfig :=
                          { cfg with locgrid := { cfg.locgrid with d_grid_x := dx } }
                        convStep cfg (pyFloat? (p 8)) (fun dy =>
                          let cfg : NLLocConfig :=
                            { cfg with locgrid := { cfg.locgrid with d_grid_y := dy } }
                          convStep cfg (pyFloat? (p 9)) (fun dz =>
                            ({ cfg with locgrid := { cfg.locgrid with d_grid_z := dz } },
                              none))))))))))
        else (cfg, none)
      else if command = "LAYER" then
        if 3 ≤ parts.length then
          convStep cfg (pyFloat? (p 1)) (fun depth =>
            convStep cfg (pyFloat? (p 2)) (fun velocity =>
              ({ cfg with layer :=
                  { layers := cfg.layer.layers ++ [.two depth velocity] } }, none)))
        else (cfg, none)
      else if command = "LOCSIG" then
        if 2 ≤ parts.length then
          ({ cfg with locsig := String.intercalate " " (parts.drop 1) }, none)
        else (cfg, none)
      else if command = "LOCCOM" then
        if 2 ≤ parts.length then
          ({ cfg with loccom := String.intercalate " " (parts.drop 1) }, none)
        else (cfg, none)
      else if command = "GTSRCE" then
        if 5 ≤ parts.length then
          convStep cfg (pyFloat? (p 2)) (fun lat =>
            convStep cfg (pyFloat? (p 3)) (fun lon =>
              convStep cfg (pyFloat? (p 4)) (fun elev =>
                convStep cfg
                  (if 5 < parts.length then pyFloat? (p 5) else some (.ofInt 0))
                  (fun depth_corr =>
                    (cfg.add_station (p 1) lat lon elev depth_corr, none)))))
        else (cfg, none)
      else if command = "EQSTA" then
        if 5 ≤ parts.length then
          convStep cfg (pyFloat? (p 3)) (fun error =>
            convStep cfg (pyFloat? (p 4)) (fun error_report =>
              (cfg.add_eqsta_single (p 1) (p 2) "GAU" error "GAU" error_report
                (.ofInt 1), none)))
        else (cfg, none)
      else (cfg, none)

/-- Fold `parseLine` over the lines, stopping at the first raised exception;
the partially updated configuration is kept either way. -/
def parseLinesFrom (cfg : NLLocConfig) : List String → NLLocConfig × Option String
  | [] => (cfg, none)
  | l :: ls =>
    let r := parseLine cfg l
    match r.2 with
    | none => parseLinesFrom r.1 ls
    | some e => (r.1, some e)

/-- `_parse_control_file_content`: split on newlines and process each line. -/
def parse_control_file_content (cfg : NLLocConfig) (content : String) :
    NLLocConfig × Option String :=
  parseLinesFrom cfg (pyLines content)

end NLLocConfig

/-- The file system as seen by the program: file name to content. -/
def lookupFs (fs : List (String × String)) (filename : String) : Option String :=
  (fs.find? (fun e => e.1 = filename)).map Prod.snd

/-- `NLLocConfig.load_from_file`: read and parse a control file. The whole
body sits in `try`/`except Exception`, so a missing file or a parse error is
caught, a diagnostic printed, and `False` returned; the mutations made before
the error remain on the configuration. -/
def load_from_file (fs : List (String × String)) (cfg : NLLocConfig)
    (filename : String) : Bool × NLLocConfig :=
  match lookupFs fs filename with
  | none => (false, cfg)
  | some content =>
    let r := cfg.parse_control_file_content content
    match r.2 with
    | none => (true, r.1)
    | some _ => (false, r.1)

/-! ### Inventory parsing (`nllpy/utils/inventory.py`) -/

/-- One line of `_parse_simple_inventory` (format `CODE LAT LON ELEV`):
`none` when the line is blank, a comment, short, or fails to parse (skipped
with a warning in the source). -/
def simpleStation? (rawLine : String) : Option StationData :=
  let line := pyStrip rawLine
  if line = "" ∨ pyStartsWith line "#" then none
  else
    let parts := pySplit line
    if parts.length < 4 then none
    else
      match pyFloat? (parts.getD 1 ""), pyFloat? (parts.getD 2 ""),
        pyFloat? (parts.getD 3 "") with
      | some lat, some lon, some elev =>
        some { code := parts.getD 0 "", latitude := lat, longitude := lon,
               depth := elev.neg.div (.ofInt 1000), elevation := elev }
      | _, _, _ => none

/-- `_parse_simple_inventory` over a file's content. -/
def parse_simple_inventory (content : String) : List StationData :=
  (pyLines content).filterMap simpleStation?

/-- Station code selection shared by the inventory parsers. -/
def fdsnCode (sta_fmt net_code sta_code : String) : String :=
  if sta_fmt = "NET.STA" then net_code ++ "." ++ sta_code
  else if sta_fmt = "NET_STA" then net_code ++ "_" ++ sta_code
  else if sta_fmt = "NET.STA.LOC" then net_code ++ "." ++ sta_code ++ "."
  else if sta_fmt = "NET_STA_LOC" then net_code ++ "_" ++ sta_code ++ "_"
  else sta_code

/-- One line of `_parse_fdsn_inventory` (format
`NET|STA|LAT|LON|ELEV|SITENAME|START|END`). -/
def fdsnStation? (sta_fmt : String) (rawLine : String) : Option StationData :=
  let line := pyStrip rawLine
  if line = "" ∨ pyStartsWith line "#" then none
  else
    let parts := pySplitBar line
    if parts.length < 5 then none
    else
      match pyFloat? (parts.getD 2 ""), pyFloat? (parts.getD 3 ""),
        pyFloat? (parts.getD 4 "") with
      | some lat, some lon, some elev =>
        some { code := fdsnCode sta_fmt (pyStrip (parts.getD 0 ""))
                 (pyStrip (parts.getD 1 "")),
               latitude := lat, longitude := lon,
               depth := elev.neg.div (.ofInt 1000), elevation := elev }
      | _, _, _ => none

/-- `_parse_fdsn_inventory` over a file's content: raises `ValueError` when no
line yields a valid station. -/
def parse_fdsn_inventory (content : String) (sta_fmt : String) :
    Except String (List StationData) :=
  let stations := (pyLines content).filterMap (fdsnStation? sta_fmt)
  if stations.isEmpty then .error "ValueError: No valid stations found in FDSN format"
  else .ok stations

/-- `parse_inventory`: raises `FileNotFoundError` when the inventory file is
absent (no handler in the function or its callers catches it); otherwise tries
the FDSN format and falls back to the simple text format on `ValueError`. -/
def parse_inventory (fs : List (String × String)) (inventory : String)
    (sta_fmt : String) : Except String (List StationData) :=
  match lookupFs fs inventory with
  | none => .error ("FileNotFoundError: Inventory file not found: " ++ inventory)
  | some content =>
    match parse_fdsn_inventory content sta_fmt with
    | .ok stations => .ok stations
    | .error _ => .ok (parse_simple_inventory content)

/-- `NLLocConfig.add_station_from_inventory`: `parse_inventory`'s exceptions
(including the missing-file one) propagate to the caller. -/
def add_station_from_inventory (fs : List (String × String)) (cfg : NLLocConfig)
    (inventory_file : String) (sta_fmt : String) : Except String NLLocConfig :=
  (parse_inventory fs inventory_file sta_fmt).map (fun stations =>
    stations.foldl (fun c sd => c.add_station_to_gtsrce sd sta_fmt) cfg)

/-! ### Preset builders (`nllpy/templates/regional.py`) -/

/-- `create_regional_config`: the mutations of the source in order, up to the
statement `config.gtlevels.layers = [...]`. `NLLocConfig` defines no
attribute `gtlevels` and no earlier statement creates one, so that attribute
access raises `AttributeError` on every call; the statements after it (the
LOCMETH settings, the signature text and the override loop over `kwargs`) are
unreachable. -/
def create_regional_config (lat_orig lon_orig : PyFloat)
    (kwargs : List (String × String)) : Except String NLLocConfig :=
  let config := NLLocConfig.init
  let config : NLLocConfig := { config with trans := { config.trans with
      transformation := "LAMBERT",
      lat_orig := some lat_orig, lon_orig := some lon_orig } }
  let config : NLLocConfig := { config with locsearch := { config.locsearch with
      search_type := "OCT", min_node_size := .ofDec 1 1, max_num_nodes := 20000 } }
  let config : NLLocConfig := { config with locgrid := { config.locgrid with
      num_grid_x := 201, num_grid_y := 201, num_grid_z := 61,
      orig_grid_x := some (.ofInt (-100)), orig_grid_y := some (.ofInt (-100)),
      orig_grid_z := .ofInt 0,
      d_grid_x := .ofInt 1, d_grid_y := .ofInt 1, d_grid_z := .ofInt 1 } }
  let _ := (config, kwargs)
  Except.error "AttributeError: NLLocConfig object has no attribute gtlevels"

end Nllpy

namespace Nllpy
namespace PyFloat

/-! ### Value lemmas: the fraction operations agree with `ℚ` arithmetic -/

theorem val_ofInt (n : ℤ) : (ofInt n).val = (n : ℚ) := by
  simp [val, ofInt]

theorem val_neg (p : PyFloat) : p.neg.val = -p.val := by
  simp [val, neg, neg_div]

theorem val_mul (a b : PyFloat) : (a.mul b).val = a.val * b.val := by
  simp [val, mul, div_mul_div_comm]

theorem div_frac (x y z w : ℚ) : (x * w) / (y * z) = (x / y) / (z / w) := by
  rw [div_div_eq_mul_div, div_mul_eq_mul_div, div_div]

theorem val_div (a b : PyFloat) : (a.div b).val = a.val / b.val := by
  unfold val div
  by_cases h : b.n < 0
  · simp only [h, if_true]
    push_cast
    rw [mul_neg, neg_div_neg_eq, div_frac]
  · simp only [h, if_false]
    push_cast
    rw [div_frac]

theorem val_eq_zero_of_den_eq_zero {p : PyFloat} (h : p.d = 0) : p.val = 0 := by
  simp [val, h]

theorem den_ne_zero_of_val_pos {p : PyFloat} (h : 0 < p.val) : p.d ≠ 0 := by
  intro hd
  rw [val_eq_zero_of_den_eq_zero hd] at h
  exact lt_irrefl 0 h

theorem num_ne_zero_of_val_pos {p : PyFloat} (h : 0 < p.val) : p.n ≠ 0 := by
  intro hn
  simp [val, hn] at h

theorem ediv_eq_floor (n d : ℤ) (hd : 0 < d) :
    Int.ediv n d = ⌊(n : ℚ) / (d : ℚ)⌋ := by
  have h1 : (d.toNat : ℤ) = d := Int.toNat_of_nonneg hd.le
  have h2 : ((d.toNat : ℕ) : ℚ) = (d : ℚ) := by
    exact_mod_cast congrArg (fun z : ℤ => (z : ℚ)) h1
  rw [← h2, Rat.floor_intCast_div_natCast, h1]
  rfl

theorem floorI_eq {p : PyFloat} (h : p.d ≠ 0) : p.floorI = ⌊p.val⌋ := by
  unfold floorI signNorm val
  by_cases hneg : p.d < 0
  · simp only [hneg, if_true]
    rw [ediv_eq_floor _ _ (by omega)]
    push_cast
    rw [neg_div_neg_eq]
  · simp only [hneg, if_false]
    exact ediv_eq_floor _ _ (by omega)

theorem mathCeil_eq {p : PyFloat} (h : p.d ≠ 0) : p.mathCeil = ⌈p.val⌉ := by
  unfold mathCeil
  rw [floorI_eq (p := p.neg) h, val_neg, Int.floor_neg, neg_neg]

theorem isNeg_iff (p : PyFloat) : p.isNeg = true ↔ p.val < 0 := by
  unfold isNeg val
  simp only [decide_eq_true_eq]
  rw [div_neg_iff]
  constructor
  · intro hlt
    rcases (mul_neg_iff.mp hlt) with ⟨h1, h2⟩ | ⟨h1, h2⟩
    · exact Or.inl ⟨by exact_mod_cast h1, by exact_mod_cast h2⟩
    · exact Or.inr ⟨by exact_mod_cast h1, by exact_mod_cast h2⟩
  · intro hor
    rcases hor with ⟨h1, h2⟩ | ⟨h1, h2⟩
    · exact mul_neg_of_pos_of_neg (by exact_mod_cast h1) (by exact_mod_cast h2)
    · exact mul_neg_of_neg_of_pos (by exact_mod_cast h1) (by exact_mod_cast h2)

theorem pyTrunc_eq_floor {p : PyFloat} (h : p.d ≠ 0) (h2 : 0 ≤ p.val) :
    p.pyTrunc = ⌊p.val⌋ := by
  unfold pyTrunc
  have hb : p.isNeg = false := by
    rcases Bool.eq_false_or_eq_true p.isNeg with hb | hb
    · exact absurd ((isNeg_iff p).mp hb) (not_lt.mpr h2)
    · exact hb
  rw [hb]
  simp only [Bool.false_eq_true, if_false]
  exact floorI_eq h

/-- The value computed by grid-origin derivation: `-(count * spacing) / 2`. -/
theorem val_origin (count : ℤ) (s : PyFloat) :
    (((ofInt count).mul s).neg.div (ofInt 2)).val = -((count : ℚ) * s.val) / 2 := by
  rw [val_div, val_neg, val_mul, val_ofInt, val_ofInt]
  norm_num

end PyFloat
end Nllpy

namespace Nllpy

/-! ### Shared infrastructure for the claim theorems -/

instance {ε α : Type} [DecidableEq ε] [DecidableEq α] : DecidableEq (Except ε α) := fun x y =>
  match x, y with
  | .ok a, .ok b =>
    if h : a = b then isTrue (by rw [h]) else isFalse (by intro hc; cases hc; exact h rfl)
  | .error a, .error b =>
    if h : a = b then isTrue (by rw [h]) else isFalse (by intro hc; cases hc; exact h rfl)
  | .ok _, .error _ => isFalse (by intro hc; cases hc)
  | .error _, .ok _ => isFalse (by intro hc; cases hc)

theorem div_den_ne_zero {a b : PyFloat} (ha : a.d ≠ 0) (hb : b.n ≠ 0) :
    (a.div b).d ≠ 0 := by
  unfold PyFloat.div
  by_cases h : b.n < 0 <;> simp [h, ha, hb]

/-- `LocGridCommand.__post_init__` in full: convenience-spacing expansion,
origin derivation on unset x/y origins, explicit origins and the z origin
untouched. -/
theorem locGrid_postInit_spec (c : LocGridCommand) :
    (c.orig_grid_x = none →
      (c.postInit.orig_grid_x).map PyFloat.val =
        some (-((c.num_grid_x : ℚ) * (c.postInit.d_grid_x).val) / 2)) ∧
    (c.orig_grid_y = none →
      (c.postInit.orig_grid_y).map PyFloat.val =
        some (-((c.num_grid_y : ℚ) * (c.postInit.d_grid_y).val) / 2)) ∧
    (∀ q, c.orig_grid_x = some q → c.postInit.orig_grid_x = some q) ∧
    (∀ q, c.orig_grid_y = some q → c.postInit.orig_grid_y = some q) ∧
    c.postInit.orig_grid_z = c.orig_grid_z ∧
    (∀ v, c.d_xyz = some v →
      c.postInit.d_grid_x = v ∧ c.postInit.d_grid_y = v ∧ c.postInit.d_grid_z = v) ∧
    (c.d_xyz = none → ∀ v, c.d_xy = some v →
      c.postInit.d_grid_x = v ∧ c.postInit.d_grid_y = v ∧
        c.postInit.d_grid_z = c.d_grid_z) ∧
    (c.d_xyz = none → c.d_xy = none →
      c.postInit.d_grid_x = c.d_grid_x ∧ c.postInit.d_grid_y = c.d_grid_y ∧
        c.postInit.d_grid_z = c.d_grid_z) := by
  unfold LocGridCommand.postInit
  rcases hxyz : c.d_xyz with _ | v <;>
    rcases hxy : c.d_xy with _ | w <;>
      rcases hx : c.orig_grid_x with _ | qx <;>
        rcases hy : c.orig_grid_y with _ | qy <;>
          simp_all [PyFloat.val_origin]

/-- `VelGridCommand.__post_init__` in full (same shape as the location grid's). -/
theorem velGrid_postInit_spec (c : VelGridCommand) :
    (c.orig_grid_x = none →
      (c.postInit.orig_grid_x).map PyFloat.val =
        some (-((c.num_grid_x : ℚ) * (c.postInit.d_grid_x).val) / 2)) ∧
    (c.orig_grid_y = none →
      (c.postInit.orig_grid_y).map PyFloat.val =
        some (-((c.num_grid_y : ℚ) * (c.postInit.d_grid_y).val) / 2)) ∧
    (∀ q, c.orig_grid_x = some q → c.postInit.orig_grid_x = some q) ∧
    (∀ q, c.orig_grid_y = some q → c.postInit.orig_grid_y = some q) ∧
    c.postInit.orig_grid_z = c.orig_grid_z ∧
    (∀ v, c.d_xyz = some v →
      c.postInit.d_grid_x = v ∧ c.postInit.d_grid_y = v ∧ c.postInit.d_grid_z = v) ∧
    (c.d_xyz = none → ∀ v, c.d_xy = some v →
      c.postInit.d_grid_x = v ∧ c.postInit.d_grid_y = v ∧
        c.postInit.d_grid_z = c.d_grid_z) ∧
    (c.d_xyz = none → c.d_xy = none →
      c.postInit.d_grid_x = c.d_grid_x ∧ c.postInit.d_grid_y = c.d_grid_y ∧
        c.postInit.d_grid_z = c.d_grid_z) := by
  unfold VelGridCommand.postInit
  rcases hxyz : c.d_xyz with _ | v <;>
    rcases hxy : c.d_xy with _ | w <;>
      rcases hx : c.orig_grid_x with _ | qx <;>
        rcases hy : c.orig_grid_y with _ | qy <;>
          simp_all [PyFloat.val_origin]

/-! ### The claims -/

/-- C2: for both grid kinds, an origin axis left unset is derived as
`-(count * spacing) / 2` with the spacing taken after the convenience
parameters (`d_xyz`, else `d_xy`) have been expanded into the per-axis
fields; an explicitly supplied origin is never overwritten; the z origin is
never auto-derived (it keeps whatever value it was given, default `0.0`). -/
theorem C2_grid_origin_derivation (c : LocGridCommand) (g : VelGridCommand) :
    ((c.orig_grid_x = none →
        (c.postInit.orig_grid_x).map PyFloat.val =
          some (-((c.num_grid_x : ℚ) * (c.postInit.d_grid_x).val) / 2)) ∧
      (c.orig_grid_y = none →
        (c.postInit.orig_grid_y).map PyFloat.val =
          some (-((c.num_grid_y : ℚ) * (c.postInit.d_grid_y).val) / 2)) ∧
      (∀ q, c.orig_grid_x = some q → c.postInit.orig_grid_x = some q) ∧
      (∀ q, c.orig_grid_y = some q → c.postInit.orig_grid_y = some q) ∧
      c.postInit.orig_grid_z = c.orig_grid_z ∧
      (∀ v, c.d_xyz = some v →
        c.postInit.d_grid_x = v ∧ c.postInit.d_grid_y = v ∧ c.postInit.d_grid_z = v) ∧
      (c.d_xyz = none → ∀ v, c.d_xy = some v →
        c.postInit.d_grid_x = v ∧ c.postInit.d_grid_y = v ∧
          c.postInit.d_grid_z = c.d_grid_z)) ∧
    ((g.orig_grid_x = none →
        (g.postInit.orig_grid_x).map PyFloat.val =
          some (-((g.num_grid_x : ℚ) * (g.postInit.d_grid_x).val) / 2)) ∧
      (g.orig_grid_y = none →
        (g.postInit.orig_grid_y).map PyFloat.val =
          some (-((g.num_grid_y : ℚ) * (g.postInit.d_grid_y).val) / 2)) ∧
      (∀ q, g.orig_grid_x = some q → g.postInit.orig_grid_x = some q) ∧
      (∀ q, g.orig_grid_y = some q → g.postInit.orig_grid_y = some q) ∧
      g.postInit.orig_grid_z = g.orig_grid_z ∧
      (∀ v, g.d_xyz = some v →
        g.postInit.d_grid_x = v ∧ g.postInit.d_grid_y = v ∧ g.postInit.d_grid_z = v) ∧
      (g.d_xyz = none → ∀ v, g.d_xy = some v →
        g.postInit.d_grid_x = v ∧ g.postInit.d_grid_y = v ∧
          g.postInit.d_grid_z = g.d_grid_z)) := by
  have hl := locGrid_postInit_spec c
  have hv := velGrid_postInit_spec g
  exact ⟨⟨hl.1, hl.2.1, hl.2.2.1, hl.2.2.2.1, hl.2.2.2.2.1, hl.2.2.2.2.2.1,
          hl.2.2.2.2.2.2.1⟩,
         ⟨hv.1, hv.2.1, hv.2.2.1, hv.2.2.2.1, hv.2.2.2.2.1, hv.2.2.2.2.2.1,
          hv.2.2.2.2.2.2.1⟩⟩

/-- Witness for C2 at the default grids: the location grid's derived x origin
is `-(100 * 1.0) / 2 = -50`, and an explicitly supplied origin survives. -/
theorem C2_grid_origin_derivation_witness :
    ((LocGridCommand.postInit {}).orig_grid_x).map PyFloat.val = some (-50) ∧
    (VelGridCommand.postInit { orig_grid_x := some (dq 7 0) }).orig_grid_x =
      some (dq 7 0) := by
  constructor
  · have h := (C2_grid_origin_derivation {} {}).1.1 rfl
    rw [h]
    norm_num [LocGridCommand.postInit, PyFloat.val, PyFloat.ofInt]
  · exact (C2_grid_origin_derivation {} { orig_grid_x := some (dq 7 0) }).2.2.2.1
      (dq 7 0) rfl

/-- C3 counterexample: `setup_basic_grid` with extent 50 km and spacing 0.5 km
stores 101 points per horizontal axis, while `ceil(extent / spacing)` is 100 —
the claim that both setup operations compute `ceil(extent / spacing)` fails on
`setup_basic_grid` whenever the spacing divides the extent exactly. -/
theorem C3_basic_grid_not_ceil :
    (NLLocConfig.init.setup_basic_grid (dq 50 0) (dq 5 1) (dq 20 0) (dq 25 2)
        none none).locgrid.num_grid_x = 101 ∧
    ⌈(dq 50 0).val / (dq 5 1).val⌉ = 100 ∧ (101 : ℤ) ≠ 100 := by
  refine ⟨by decide, ?_, by decide⟩
  rw [← PyFloat.val_div, ← PyFloat.mathCeil_eq (by decide)]
  decide

/-- C3 as amended: `setup_grid_from_km` computes every point count as
`ceil(extent / spacing)`, but `setup_basic_grid` computes
`floor(extent / spacing) + 1` (equal to the ceiling only when the spacing
does not divide the extent). -/
theorem C3_point_counts (cfg : NLLocConfig) (kmx kmy kmz dx dy dz gs sp dr ds : PyFloat)
    (hkx : 0 < kmx.val) (hky : 0 < kmy.val) (hkz : 0 < kmz.val)
    (hdx : 0 < dx.val) (hdy : 0 < dy.val) (hdz : 0 < dz.val)
    (hgs : 0 < gs.val) (hsp : 0 < sp.val) (hdr : 0 < dr.val) (hds : 0 < ds.val) :
    (cfg.setup_grid_from_km kmx kmy kmz dx dy dz none none none none).locgrid.num_grid_x =
      ⌈kmx.val / dx.val⌉ ∧
    (cfg.setup_grid_from_km kmx kmy kmz dx dy dz none none none none).locgrid.num_grid_y =
      ⌈kmy.val / dy.val⌉ ∧
    (cfg.setup_grid_from_km kmx kmy kmz dx dy dz none none none none).locgrid.num_grid_z =
      ⌈kmz.val / dz.val⌉ ∧
    (cfg.setup_basic_grid gs sp dr ds none none).locgrid.num_grid_x =
      ⌊gs.val / sp.val⌋ + 1 ∧
    (cfg.setup_basic_grid gs sp dr ds none none).locgrid.num_grid_y =
      ⌊gs.val / sp.val⌋ + 1 ∧
    (cfg.setup_basic_grid gs sp dr ds none none).locgrid.num_grid_z =
      ⌊dr.val / ds.val⌋ + 1 := by
  have ddx : (kmx.div dx).d ≠ 0 :=
    div_den_ne_zero (PyFloat.den_ne_zero_of_val_pos hkx) (PyFloat.num_ne_zero_of_val_pos hdx)
  have ddy : (kmy.div dy).d ≠ 0 :=
    div_den_ne_zero (PyFloat.den_ne_zero_of_val_pos hky) (PyFloat.num_ne_zero_of_val_pos hdy)
  have ddz : (kmz.div dz).d ≠ 0 :=
    div_den_ne_zero (PyFloat.den_ne_zero_of_val_pos hkz) (PyFloat.num_ne_zero_of_val_pos hdz)
  have dgs : (gs.div sp).d ≠ 0 :=
    div_den_ne_zero (PyFloat.den_ne_zero_of_val_pos hgs) (PyFloat.num_ne_zero_of_val_pos hsp)
  have ddr : (dr.div ds).d ≠ 0 :=
    div_den_ne_zero (PyFloat.den_ne_zero_of_val_pos hdr) (PyFloat.num_ne_zero_of_val_pos hds)
  refine ⟨?_, ?_, ?_, ?_, ?_, ?_⟩ <;>
    simp [NLLocConfig.setup_grid_from_km, NLLocConfig.setup_basic_grid,
      LocGridCommand.postInit]
  · rw [PyFloat.mathCeil_eq ddx, PyFloat.val_div]
  · rw [PyFloat.mathCeil_eq ddy, PyFloat.val_div]
  · rw [PyFloat.mathCeil_eq ddz, PyFloat.val_div]
  · rw [PyFloat.pyTrunc_eq_floor dgs (by rw [PyFloat.val_div]; positivity),
      PyFloat.val_div]
  · rw [PyFloat.pyTrunc_eq_floor dgs (by rw [PyFloat.val_div]; positivity),
      PyFloat.val_div]
  · rw [PyFloat.pyTrunc_eq_floor ddr (by rw [PyFloat.val_div]; positivity),
      PyFloat.val_div]

/-- Witness for C3 at extents 30/spacing 7 (ceiling path) and extent 50 /
spacing 0.5 (floor-plus-one path). -/
theorem C3_point_counts_witness :
    (0 : ℚ) < (dq 30 0).val ∧
    (NLLocConfig.init.setup_grid_from_km (dq 30 0) (dq 30 0) (dq 30 0)
        (dq 7 0) (dq 7 0) (dq 7 0) none none none none).locgrid.num_grid_x =
      ⌈(dq 30 0).val / (dq 7 0).val⌉ ∧
    (NLLocConfig.init.setup_basic_grid (dq 50 0) (dq 5 1) (dq 20 0) (dq 25 2)
        none none).locgrid.num_grid_x = ⌊(dq 50 0).val / (dq 5 1).val⌋ + 1 := by
  have h30 : (0 : ℚ) < (dq 30 0).val := by norm_num [dq, PyFloat.ofDec, PyFloat.val]
  have h7 : (0 : ℚ) < (dq 7 0).val := by norm_num [dq, PyFloat.ofDec, PyFloat.val]
  have h50 : (0 : ℚ) < (dq 50 0).val := by norm_num [dq, PyFloat.ofDec, PyFloat.val]
  have h05 : (0 : ℚ) < (dq 5 1).val := by norm_num [dq, PyFloat.ofDec, PyFloat.val]
  have h20 : (0 : ℚ) < (dq 20 0).val := by norm_num [dq, PyFloat.ofDec, PyFloat.val]
  have h025 : (0 : ℚ) < (dq 25 2).val := by norm_num [dq, PyFloat.ofDec, PyFloat.val]
  have h := C3_point_counts NLLocConfig.init (dq 30 0) (dq 30 0) (dq 30 0)
    (dq 7 0) (dq 7 0) (dq 7 0) (dq 50 0) (dq 5 1) (dq 20 0) (dq 25 2)
    h30 h30 h30 h7 h7 h7 h50 h05 h20 h025
  exact ⟨h30, h.1, h.2.2.2.1⟩

/-- C4: `add_station` appends exactly one station record and exactly one
default zero-error Gaussian P-phase EQSTA record for the same code, changes
no other state, and does not deduplicate: adding the same code twice leaves
two station entries. -/
theorem C4_add_station_appends (cfg : NLLocConfig) (code : String)
    (lat lon elev depth_corr : PyFloat) :
    (cfg.add_station code lat lon elev depth_corr).gtsrce_stations =
      cfg.gtsrce_stations ++
        [{ label := code, lat_sta := lat, lon_sta := lon, elev := elev,
           depth_corr := depth_corr, sta_fmt := "STA" }] ∧
    (cfg.add_station code lat lon elev depth_corr).eqsta_commands =
      cfg.eqsta_commands ++
        [{ label := code, phase := "P", error_type := "GAU",
           error := PyFloat.ofInt 0, error_report_type := "GAU",
           error_report := PyFloat.ofInt 0, prob_active := PyFloat.ofInt 1,
           sta_fmt := "STA" }] ∧
    (cfg.add_station code lat lon elev depth_corr).control = cfg.control ∧
    (cfg.add_station code lat lon elev depth_corr).trans = cfg.trans ∧
    (cfg.add_station code lat lon elev depth_corr).vgtype = cfg.vgtype ∧
    (cfg.add_station code lat lon elev depth_corr).eqvpvs = cfg.eqvpvs ∧
    (cfg.add_station code lat lon elev depth_corr).velocity_path = cfg.velocity_path ∧
    (cfg.add_station code lat lon elev depth_corr).time_path = cfg.time_path ∧
    (cfg.add_station code lat lon elev depth_corr).synth_path = cfg.synth_path ∧
    (cfg.add_station code lat lon elev depth_corr).input_obs = cfg.input_obs ∧
    (cfg.add_station code lat lon elev depth_corr).output_obs = cfg.output_obs ∧
    (cfg.add_station code lat lon elev depth_corr).lochypout = cfg.lochypout ∧
    (cfg.add_station code lat lon elev depth_corr).vggrid = cfg.vggrid ∧
    (cfg.add_station code lat lon elev depth_corr).locgrid = cfg.locgrid ∧
    (cfg.add_station code lat lon elev depth_corr).locsearch = cfg.locsearch ∧
    (cfg.add_station code lat lon elev depth_corr).locmethod = cfg.locmethod ∧
    (cfg.add_station code lat lon elev depth_corr).layer = cfg.layer ∧
    (cfg.add_station code lat lon elev depth_corr).locsig = cfg.locsig ∧
    (cfg.add_station code lat lon elev depth_corr).loccom = cfg.loccom ∧
    (cfg.add_station code lat lon elev depth_corr).locphaseid = cfg.locphaseid ∧
    (cfg.add_station code lat lon elev depth_corr).locqual2err = cfg.locqual2err ∧
    ((cfg.add_station code lat lon elev depth_corr).add_station code lat lon
        elev depth_corr).gtsrce_stations.length =
      cfg.gtsrce_stations.length + 2 ∧
    ((cfg.add_station code lat lon elev depth_corr).add_station code lat lon
        elev depth_corr).gtsrce_stations.map GTSrceCommand.label =
      cfg.gtsrce_stations.map GTSrceCommand.label ++ [code, code] := by
  refine ⟨rfl, rfl, rfl, rfl, rfl, rfl, rfl, rfl, rfl, rfl, rfl, rfl, rfl, rfl,
    rfl, rfl, rfl, rfl, rfl, rfl, rfl, ?_, ?_⟩ <;>
    simp [NLLocConfig.add_station]

/-- C5: rendering a `TransCommand` fails exactly when the origin latitude or
longitude is unset; with both set it returns the TRANS line. -/
theorem C5_trans_render_precondition (c : TransCommand) :
    ((∃ e, c.render = Except.error e) ↔ c.lat_orig = none ∨ c.lon_orig = none) ∧
    (∀ la lo, c.lat_orig = some la → c.lon_orig = some lo →
      c.render = Except.ok ("TRANS " ++ c.transformation ++ " " ++
        pyFloatRepr la ++ " " ++ pyFloatRepr lo ++ " " ++ pyFloatRepr c.rotation)) := by
  constructor
  · constructor
    · rintro ⟨e, he⟩
      by_contra hno
      rw [TransCommand.render, if_neg hno] at he
      cases he
    · intro h
      exact ⟨_, by rw [TransCommand.render, if_pos h]⟩
  · intro la lo hla hlo
    rw [TransCommand.render, if_neg (by simp [hla, hlo])]
    simp [pyOptFloatRepr, hla, hlo]

/-- Witness for C5: a default command (origin unset) fails to render, and one
with both origins set renders the TRANS line. -/
theorem C5_trans_render_precondition_witness :
    (∃ e, TransCommand.render {} = Except.error e) ∧
    TransCommand.render { lat_orig := some (dq 1 0), lon_orig := some (dq 2 0) } =
      Except.ok ("TRANS " ++ "SIMPLE" ++ " " ++ pyFloatRepr (dq 1 0) ++ " " ++
        pyFloatRepr (dq 2 0) ++ " " ++ pyFloatRepr (PyFloat.ofInt 0)) := by
  constructor
  · exact (C5_trans_render_precondition {}).1.mpr (Or.inl rfl)
  · exact (C5_trans_render_precondition
      { lat_orig := some (dq 1 0), lon_orig := some (dq 2 0) }).2
      (dq 1 0) (dq 2 0) rfl rfl

/-- C6 counterexample: loading a control document from an absent file is not
propagated to the caller — `load_from_file` catches the `FileNotFoundError`,
prints a diagnostic and returns `False` with the configuration untouched. -/
theorem C6_load_missing_file_returns_false :
    load_from_file [] NLLocConfig.init "missing.in" = (false, NLLocConfig.init) := rfl

/-- C6 as amended: for an absent file, `parse_inventory` raises
`FileNotFoundError` and the error propagates through
`add_station_from_inventory`, but `load_from_file` converts the same failure
into a non-raising `False` return. -/
theorem C6_missing_file_behaviour (fs : List (String × String))
    (filename sta_fmt : String) (cfg : NLLocConfig)
    (h : lookupFs fs filename = none) :
    parse_inventory fs filename sta_fmt =
      Except.error ("FileNotFoundError: Inventory file not found: " ++ filename) ∧
    add_station_from_inventory fs cfg filename sta_fmt =
      Except.error ("FileNotFoundError: Inventory file not found: " ++ filename) ∧
    load_from_file fs cfg filename = (false, cfg) := by
  have h1 : parse_inventory fs filename sta_fmt =
      Except.error ("FileNotFoundError: Inventory file not found: " ++ filename) := by
    unfold parse_inventory
    rw [h]
  refine ⟨h1, ?_, ?_⟩
  · unfold add_station_from_inventory
    rw [h1]
    rfl
  · unfold load_from_file
    rw [h]

/-- Witness for C6 at an empty file system. -/
theorem C6_missing_file_behaviour_witness :
    parse_inventory [] "stations.txt" "STA" =
      Except.error ("FileNotFoundError: Inventory file not found: " ++ "stations.txt") ∧
    load_from_file [] NLLocConfig.init "stations.txt" = (false, NLLocConfig.init) := by
  have h := C6_missing_file_behaviour [] "stations.txt" "STA" NLLocConfig.init rfl
  exact ⟨h.1, h.2.2⟩

/-- C7: the station line the code actually emits for
`GTSrceCommand("VT01", 46.5103, 8.4758, -1.5)`. The claim (and the repo's own
`test_gtsrce_command`) expects `GTSRCE VT01 LATLON 46.510300 8.475800 -1.500
0.000`; the code pads the label to width 5 (two spaces before LATLON), prints
the depth correction `0.0` at one decimal before the elevation `-1.500`, and
appends a trailing space. -/
theorem C7_gtsrce_render_actual :
    GTSrceCommand.render { label := "VT01", lat_sta := dq 465103 4,
                           lon_sta := dq 84758 4, elev := dq (-15) 1 } =
      "GTSRCE VT01  LATLON 46.510300 8.475800 0.0 -1.500 " := by decide

/-- C8: the TRANS line the code actually emits for kind SDC, latitude 46.51,
longitude 8.48. The claim (and the repo's own `test_trans_command`) expects
8-decimal coordinates `TRANS SDC 46.51000000 8.48000000 0.00`; the code
interpolates the floats with no format specifier. -/
theorem C8_trans_render_actual :
    TransCommand.render { transformation := "SDC", lat_orig := some (dq 4651 2),
                          lon_orig := some (dq 848 2) } =
      Except.ok "TRANS SDC 46.51 8.48 0.0" := by decide

/-- C9: `create_regional_config` raises `AttributeError` on every input — the
statement `config.gtlevels.layers = [...]` reads an attribute `NLLocConfig`
never defines — so no call returns a populated configuration. -/
theorem C9_regional_builder_always_raises (lat_orig lon_orig : PyFloat)
    (kwargs : List (String × String)) :
    create_regional_config lat_orig lon_orig kwargs =
      Except.error "AttributeError: NLLocConfig object has no attribute gtlevels" := rfl

/-- A document whose first line parses (appending a station and its default
EQSTA entry) and whose second line is a recognized keyword with a non-numeric
token where a float is expected (`float("SIMPLE")` raises). -/
def nonAtomicDoc : String := "GTSRCE VT01 46.51 8.47 1500.0\nTRANS SIMPLE 1 2"

/-- C10: `load_from_file` always returns a boolean — a missing file or any
line-parse failure is caught and reported as `False` — and the load is not
atomic: on failure, the mutations made by earlier lines stay on the
configuration (here the station and EQSTA entry appended by the GTSRCE line
before the TRANS line raised). -/
theorem C10_load_returns_bool_nonatomic :
    (∀ (fs : List (String × String)) (cfg : NLLocConfig) (filename : String),
      lookupFs fs filename = none → load_from_file fs cfg filename = (false, cfg)) ∧
    (∀ (fs : List (String × String)) (cfg : NLLocConfig) (filename content : String),
      lookupFs fs filename = some content →
        load_from_file fs cfg filename =
          ((cfg.parse_control_file_content content).2.isNone,
            (cfg.parse_control_file_content content).1)) ∧
    (load_from_file [("run.in", nonAtomicDoc)] NLLocConfig.init "run.in").1 = false ∧
    (load_from_file [("run.in", nonAtomicDoc)] NLLocConfig.init
        "run.in").2.get_gtsrce_section =
      "# Station definitions\nGTSRCE VT01  LATLON 46.510000 8.470000 0.0 1500.000 " ∧
    (load_from_file [("run.in", nonAtomicDoc)] NLLocConfig.init
        "run.in").2.eqsta_commands.map EQSTACommand.label = ["VT01"] := by
  refine ⟨?_, ?_, by decide, by decide, by decide⟩
  · intro fs cfg filename h
    unfold load_from_file
    rw [h]
  · intro fs cfg filename content h
    unfold load_from_file
    rw [h]
    cases hc : (cfg.parse_control_file_content content).2 <;> simp [hc]

/-- Witness for C10 at an absent file. -/
theorem C10_load_returns_bool_nonatomic_witness :
    load_from_file [] NLLocConfig.init "absent.in" = (false, NLLocConfig.init) :=
  C10_load_returns_bool_nonatomic.1 [] NLLocConfig.init "absent.in" rfl

/-- A configuration with the transform origin set and a one-layer velocity
model: a legal input for the render-then-load round trip. -/
def roundTripInput : NLLocConfig := { NLLocConfig.init with
  trans := { NLLocConfig.init.trans with
             lat_orig := some (dq 4651 2), lon_orig := some (dq 848 2) },
  layer := { layers :=
             [.seven (dq 0 2) (dq 42669 4) (dq 0 2) (dq 24664 4) (dq 0 2) (dq 27 1) (dq 0 1)] } }

/-- C1: the render-then-load round trip fails. `write_complete_control_file`
renders `roundTripInput` successfully, but loading the rendered document into
a fresh configuration raises on the document's own TRANS line (the parser
calls `float` on the transform-kind token `SIMPLE`): `load_from_file` returns
`False` and the fresh configuration has no transform origin at all, while
`roundTripInput.trans.lat_orig` is 46.51 — no field round-trips. -/
theorem C1_render_then_load_fails :
    roundTripInput.trans.lat_orig = some (dq 4651 2) ∧
    (roundTripInput.write_complete_control_file).map (fun doc =>
        let r := load_from_file [("volcano.in", doc)] NLLocConfig.init "volcano.in"
        (r.1, r.2.trans.lat_orig, r.2.trans.lon_orig)) =
      Except.ok (false, none, none) := by
  constructor
  · rfl
  · decide

end Nllpy
